import Mathlib

/-! ## libslic3r/GCode.hpp : a verification development

Shallow embedding of the inline code of `src/libslic3r/GCode.hpp`
(classes `Wipe`, `WipeTowerIntegration`, `LayerResult`, `GCode`,
`GCode::LayerToPrint`, `GCode::GCodeOutputStream`) together with the properties proved about it.

Conventions of the embedding.

* A `float` or `double` value is represented by the rational number it denotes
  (`ℚ`); a conversion `float(x)` that may round is an explicit function argument.
* A pointer that may be null is an `Option`; a null dereference is `none`.
* The two cursors of `WipeTowerIntegration` are C++ `int`s.  Signed overflow of
  `++` is undefined behaviour in C++, so the cursors are mathematical integers
  (`Int`): the model describes the executions in which no cursor overflows.
* Fixed-width integers whose width matters (`size_t`, `coord_t` in
  `LayerResult`) carry their width explicitly.
-/

namespace Slic3r

/-! ## Geometry carriers (Point.hpp, Polyline.hpp: only the declarations used here) -/

/-- `Vec2d`: a pair of doubles. -/
structure Vec2d where
  x : ℚ
  y : ℚ
  deriving DecidableEq

/-- `Vec2f`: a pair of floats. -/
structure Vec2f where
  x : ℚ
  y : ℚ
  deriving DecidableEq

/-- `Point`: a pair of scaled integer coordinates (`coord_t`). -/
structure Point where
  x : Int
  y : Int
  deriving DecidableEq

/-- `Polyline`: the member read by GCode.hpp is the vector `points`. -/
structure Polyline where
  points : List Point
  deriving DecidableEq

/-- `Polyline()`: the default constructor, an empty vector of points. -/
def Polyline.new : Polyline := ⟨[]⟩

/-! ## class Wipe -/

/-- `class Wipe`: the data members `enable` and `path`. -/
structure Wipe where
  enable : Bool
  path : Polyline
  deriving DecidableEq

namespace Wipe

/-- `Wipe() : enable(false) {}`. -/
def new : Wipe := { enable := false, path := Polyline.new }

/-- `bool has_path() const { return !this->path.points.empty(); }`. -/
def has_path (w : Wipe) : Bool := !w.path.points.isEmpty

/-- `void reset_path() { this->path = Polyline(); }`. -/
def reset_path (w : Wipe) : Wipe := { w with path := Polyline.new }

end Wipe

/-! ## class WipeTowerIntegration -/

/-- The members of `PrintConfig` read by the constructor of `WipeTowerIntegration`. -/
structure PrintConfig where
  wipe_tower_x : ℚ
  wipe_tower_y : ℚ
  wipe_tower_width : ℚ
  wipe_tower_rotation_angle : ℚ
  extruder_offset : List Vec2d

/-- `class WipeTowerIntegration`: all data members, in declaration order.
`TCR` stands for `WipeTower::ToolChangeResult`, declared in GCode/WipeTower.hpp. -/
structure WipeTowerIntegration (TCR : Type) where
  m_left : ℚ
  m_right : ℚ
  m_wipe_tower_pos : Vec2f
  m_wipe_tower_rotation : ℚ
  m_extruder_offsets : List Vec2d
  m_priming : List TCR
  m_tool_changes : List (List TCR)
  m_final_purge : TCR
  m_layer_idx : Int
  m_tool_change_idx : Int
  m_last_wipe_tower_print_z : ℚ

namespace WipeTowerIntegration

variable {TCR : Type}

/-- The constructor of `WipeTowerIntegration`; `toFloat` is the conversion `float(double)`. -/
def new (toFloat : ℚ → ℚ) (print_config : PrintConfig) (priming : List TCR)
    (tool_changes : List (List TCR)) (final_purge : TCR) : WipeTowerIntegration TCR :=
  { m_left := 0
    m_right := toFloat print_config.wipe_tower_width
    m_wipe_tower_pos := ⟨toFloat print_config.wipe_tower_x, toFloat print_config.wipe_tower_y⟩
    m_wipe_tower_rotation := toFloat print_config.wipe_tower_rotation_angle
    m_extruder_offsets := print_config.extruder_offset
    m_priming := priming
    m_tool_changes := tool_changes
    m_final_purge := final_purge
    m_layer_idx := -1
    m_tool_change_idx := 0
    m_last_wipe_tower_print_z := 0 }

/-- `void next_layer() { ++ m_layer_idx; m_tool_change_idx = 0; }`. -/
def next_layer (s : WipeTowerIntegration TCR) : WipeTowerIntegration TCR :=
  { s with m_layer_idx := s.m_layer_idx + 1, m_tool_change_idx := 0 }

/-- The state after `k` consecutive calls of `next_layer` and no other operation. -/
def next_layer_times : Nat → WipeTowerIntegration TCR → WipeTowerIntegration TCR
  | 0, s => s
  | k + 1, s => next_layer (next_layer_times k s)

/-- The tool-change blocks planned for the layer under the layer cursor,
`m_tool_changes[m_layer_idx]`; no block is planned when the cursor is not the index
of a planned layer. -/
def planned (s : WipeTowerIntegration TCR) : List TCR :=
  match s.m_layer_idx with
  | Int.ofNat L => s.m_tool_changes.getD L []
  | Int.negSucc _ => []

/-- Modelled from the spec: the body of `WipeTowerIntegration::tool_change` is in
GCode.cpp, which is not among the sources; GCode.hpp only declares it.  The spec
(section 4.6) says that requesting a tool change returns the next tool-change block
for the current layer cursor and advances the tool-change cursor, and that requesting
more tool changes than were planned for a layer is a fatal contract violation.
The model returns the block itself (not the text rendered from it) and leaves out the
arguments `gcodegen`, `extruder_id` and `finish_layer`, on which the spec is silent. -/
def tool_change (s : WipeTowerIntegration TCR) : Except String (TCR × WipeTowerIntegration TCR) :=
  match s.m_tool_change_idx with
  | Int.ofNat i =>
    match (planned s)[i]? with
    | some tcr => Except.ok (tcr, { s with m_tool_change_idx := s.m_tool_change_idx + 1 })
    | none => Except.error "tool change requested beyond the planned count"
  | Int.negSucc _ => Except.error "tool change requested beyond the planned count"

/-- Run `n` tool-change requests in a row, collecting the served blocks; the first
failing request aborts the run. -/
def tool_change_times : Nat → WipeTowerIntegration TCR →
    Except String (List TCR × WipeTowerIntegration TCR)
  | 0, s => Except.ok ([], s)
  | n + 1, s =>
    match tool_change s with
    | Except.ok (tcr, s1) =>
      match tool_change_times n s1 with
      | Except.ok (rest, s2) => Except.ok (tcr :: rest, s2)
      | Except.error e => Except.error e
    | Except.error e => Except.error e

end WipeTowerIntegration

/-! ## struct LayerResult -/

/-- `struct LayerResult`; `layer_id` is a `size_t`, an unsigned machine integer. -/
structure LayerResult where
  gcode : String
  layer_id : Nat
  spiral_vase_enable : Bool := false
  cooling_buffer_flush : Bool := false
  nop_layer_result : Bool := false
  deriving DecidableEq

/-- `std::numeric_limits<T>::max()` for a signed two's-complement integer type `T`
of `bits` bits. -/
def numeric_limits_max_signed (bits : Nat) : Int := 2 ^ (bits - 1) - 1

/-- `std::numeric_limits<size_t>::max()` for a `size_t` of `sizeBits` bits. -/
def size_t_max (sizeBits : Nat) : Nat := 2 ^ sizeBits - 1

/-- Integral conversion to a `size_t` of `sizeBits` bits (reduction modulo `2 ^ sizeBits`). -/
def to_size_t (sizeBits : Nat) (v : Int) : Nat := (v % 2 ^ sizeBits).toNat

/-- `static LayerResult make_nop_layer_result()
{ return {"", std::numeric_limits<coord_t>::max(), false, false, true}; }`.
`coord_t` is the signed scaled-coordinate integer type of libslic3r.h (not among the
sources: `int32_t` or `int64_t` depending on the build); its width `coordBits` and the
width `sizeBits` of `size_t` are arguments. -/
def LayerResult.make_nop_layer_result (coordBits sizeBits : Nat) : LayerResult :=
  { gcode := ""
    layer_id := to_size_t sizeBits (numeric_limits_max_signed coordBits)
    spiral_vase_enable := false
    cooling_buffer_flush := false
    nop_layer_result := true }

/-! ## struct GCode::LayerToPrint -/

/-- A `const PrintObject*` that is not null: the identity of the object pointed to. -/
structure PrintObjectRef where
  addr : Nat
  deriving DecidableEq

/-- The members of `Layer` (Layer.hpp) read by GCode.hpp: the print height `print_z`
and the owning object returned by `object()`. -/
structure Layer where
  print_z : ℚ
  object : Option PrintObjectRef
  deriving DecidableEq

/-- `class SupportLayer : public Layer`. -/
structure SupportLayer extends Layer
  deriving DecidableEq

/-- `struct GCode::LayerToPrint`: two pointers that may be null. -/
structure LayerToPrint where
  object_layer : Option Layer
  support_layer : Option SupportLayer
  deriving DecidableEq

namespace LayerToPrint

/-- `LayerToPrint() : object_layer(nullptr), support_layer(nullptr) {}`. -/
def new : LayerToPrint := { object_layer := none, support_layer := none }

/-- `layer()`: `(object_layer != nullptr) ? object_layer : support_layer`. -/
def layer (l : LayerToPrint) : Option Layer :=
  match l.object_layer with
  | some o => some o
  | none => l.support_layer.map SupportLayer.toLayer

/-- `object()`: `(this->layer() != nullptr) ? this->layer()->object() : nullptr`. -/
def object (l : LayerToPrint) : Option PrintObjectRef :=
  match l.layer with
  | some x => x.object
  | none => none

/-- `print_z()`: `(object_layer != nullptr && support_layer != nullptr) ?
0.5 * (object_layer->print_z + support_layer->print_z) : this->layer()->print_z`.
The result is `none` when `this->layer()` is null and is dereferenced. -/
def print_z (l : LayerToPrint) : Option ℚ :=
  match l.object_layer, l.support_layer with
  | some o, some s => some (0.5 * (o.print_z + s.print_z))
  | _, _ =>
    match l.layer with
    | some x => some x.print_z
    | none => none

end LayerToPrint

/-! ## class GCodeWriter (as seen from GCode::unretract) -/

/-- Modelled from the spec: `GCodeWriter` (GCodeWriter.hpp, GCodeWriter.cpp) is not among
the sources.  What a caller of retract and unretract can observe of it: whether the
extruder is retracted, whether the nozzle is lifted, and the motion/extrusion state
`M` (position, extrusion axis). -/
structure GCodeWriter (M : Type) where
  retracted : Bool
  lifted : Bool
  motion : M

namespace GCodeWriter

variable {M : Type}

/-- Modelled from the spec: `GCodeWriter::unlift` is not among the sources.  Spec
section 4.4: unretraction "when not retracted is a no-op from the caller's perspective";
a lifted nozzle is brought back by `lower`, which gives the emitted text and the new
motion state. -/
def unlift (lower : M → String × M) (w : GCodeWriter M) : String × GCodeWriter M :=
  if w.lifted then
    ((lower w.motion).1, { w with lifted := false, motion := (lower w.motion).2 })
  else ("", w)

/-- Modelled from the spec: `GCodeWriter::unretract` is not among the sources.  Spec
section 4.4: unretraction "when not retracted is a no-op from the caller's perspective";
a retracted extruder is restored by `restore`, which gives the emitted text and the new
motion state. -/
def unretract (restore : M → String × M) (w : GCodeWriter M) : String × GCodeWriter M :=
  if w.retracted then
    ((restore w.motion).1, { w with retracted := false, motion := (restore w.motion).2 })
  else ("", w)

end GCodeWriter

/-! ## class GCode -/

/-- `class GCode`: the data members used by the inline member functions of GCode.hpp. -/
structure GCode (M : Type) where
  m_origin : Vec2d
  m_writer : GCodeWriter M
  m_wipe : Wipe
  m_layer_count : Nat
  m_last_pos : Point
  m_last_pos_defined : Bool
  visitor_gcode : String
  visitor_comment : String
  visitor_speed : ℚ

namespace GCode

variable {M : Type}

/-- `std::string unretract() { return m_writer.unlift() + m_writer.unretract(); }`.
The two operands of `+` are indeterminately sequenced in C++: `unlift_first` tells
which call runs first; the text is always the one of `unlift` followed by the one of
`unretract`. -/
def unretract (lower restore : M → String × M) (unlift_first : Bool) (g : GCode M) :
    String × GCode M :=
  if unlift_first then
    let a := GCodeWriter.unlift lower g.m_writer
    let b := GCodeWriter.unretract restore a.2
    (a.1 ++ b.1, { g with m_writer := b.2 })
  else
    let b := GCodeWriter.unretract restore g.m_writer
    let a := GCodeWriter.unlift lower b.2
    (a.1 ++ b.1, { g with m_writer := a.2 })

/-- The constructor `GCode()`, on the members carried by the model: `m_origin(Vec2d::Zero())`,
`m_layer_count(0)`, `m_last_pos_defined(false)`; `m_wipe` and the two visitor strings are
default-constructed.  The default-constructed writer and last position (GCodeWriter.hpp,
Point.hpp) and the uninitialised `visitor_speed` are arguments. -/
def new (writer : GCodeWriter M) (last_pos : Point) (visitor_speed : ℚ) : GCode M :=
  { m_origin := ⟨0, 0⟩
    m_writer := writer
    m_wipe := Wipe.new
    m_layer_count := 0
    m_last_pos := last_pos
    m_last_pos_defined := false
    visitor_gcode := ""
    visitor_comment := ""
    visitor_speed := visitor_speed }

/-- `const Point& last_pos() const { return m_last_pos; }`. -/
def last_pos (g : GCode M) : Point := g.m_last_pos

/-- `void set_last_pos(const Point &pos) { m_last_pos = pos; m_last_pos_defined = true; }`. -/
def set_last_pos (pos : Point) (g : GCode M) : GCode M :=
  { g with m_last_pos := pos, m_last_pos_defined := true }

/-- `bool last_pos_defined() const { return m_last_pos_defined; }`. -/
def last_pos_defined (g : GCode M) : Bool := g.m_last_pos_defined

end GCode

/-- The five extrude member functions called by `GCode::use`: `extrude_path`,
`extrude_path_3D`, `extrude_multi_path`, `extrude_multi_path3D` and `extrude_loop`.
GCode.hpp only declares them (bodies in GCode.cpp), so they are arguments: each takes
the entity, the description and the speed, runs on the generator and returns the text
together with the generator it leaves.  `P`, `P3`, `MP`, `MP3`, `LP` stand for
`ExtrusionPath`, `ExtrusionPath3D`, `ExtrusionMultiPath`, `ExtrusionMultiPath3D` and
`ExtrusionLoop` (ExtrusionEntity.hpp). -/
structure ExtrudeFns (M P P3 MP MP3 LP : Type) where
  extrude_path : P → String → ℚ → GCode M → String × GCode M
  extrude_path_3D : P3 → String → ℚ → GCode M → String × GCode M
  extrude_multi_path : MP → String → ℚ → GCode M → String × GCode M
  extrude_multi_path3D : MP3 → String → ℚ → GCode M → String × GCode M
  extrude_loop : LP → String → ℚ → GCode M → String × GCode M

/-- Modelled from the spec: the bodies of the five extrude functions are not among the
sources.  Spec section 4.4 gives their output as "an appended fragment of G-code text
plus updates to toolhead state", and the toolhead state of section 3 does not contain
the visitor accumulator: an extrude function leaves `visitor_gcode` as it found it. -/
def ExtrudeFns.keeps_visitor_gcode {M P P3 MP MP3 LP : Type}
    (F : ExtrudeFns M P P3 MP MP3 LP) : Prop :=
  (∀ e c v g, (F.extrude_path e c v g).2.visitor_gcode = g.visitor_gcode) ∧
  (∀ e c v g, (F.extrude_path_3D e c v g).2.visitor_gcode = g.visitor_gcode) ∧
  (∀ e c v g, (F.extrude_multi_path e c v g).2.visitor_gcode = g.visitor_gcode) ∧
  (∀ e c v g, (F.extrude_multi_path3D e c v g).2.visitor_gcode = g.visitor_gcode) ∧
  (∀ e c v g, (F.extrude_loop e c v g).2.visitor_gcode = g.visitor_gcode)

namespace GCode

variable {M P P3 MP MP3 LP : Type}

/-- `void use(const ExtrusionPath &path)
{ visitor_gcode += extrude_path(path, visitor_comment, visitor_speed); }`.
The call is evaluated first; its text is then appended to `visitor_gcode` of the
generator the call leaves. -/
def use_ExtrusionPath (F : ExtrudeFns M P P3 MP MP3 LP) (path : P) (g : GCode M) : GCode M :=
  let r := F.extrude_path path g.visitor_comment g.visitor_speed g
  { r.2 with visitor_gcode := r.2.visitor_gcode ++ r.1 }

/-- `void use(const ExtrusionPath3D &path3D)
{ visitor_gcode += extrude_path_3D(path3D, visitor_comment, visitor_speed); }`. -/
def use_ExtrusionPath3D (F : ExtrudeFns M P P3 MP MP3 LP) (path3D : P3) (g : GCode M) :
    GCode M :=
  let r := F.extrude_path_3D path3D g.visitor_comment g.visitor_speed g
  { r.2 with visitor_gcode := r.2.visitor_gcode ++ r.1 }

/-- `void use(const ExtrusionMultiPath &multipath)
{ visitor_gcode += extrude_multi_path(multipath, visitor_comment, visitor_speed); }`. -/
def use_ExtrusionMultiPath (F : ExtrudeFns M P P3 MP MP3 LP) (multipath : MP) (g : GCode M) :
    GCode M :=
  let r := F.extrude_multi_path multipath g.visitor_comment g.visitor_speed g
  { r.2 with visitor_gcode := r.2.visitor_gcode ++ r.1 }

/-- `void use(const ExtrusionMultiPath3D &multipath)
{ visitor_gcode += extrude_multi_path3D(multipath, visitor_comment, visitor_speed); }`. -/
def use_ExtrusionMultiPath3D (F : ExtrudeFns M P P3 MP MP3 LP) (multipath : MP3)
    (g : GCode M) : GCode M :=
  let r := F.extrude_multi_path3D multipath g.visitor_comment g.visitor_speed g
  { r.2 with visitor_gcode := r.2.visitor_gcode ++ r.1 }

/-- `void use(const ExtrusionLoop &loop)
{ visitor_gcode += extrude_loop(loop, visitor_comment, visitor_speed); }`. -/
def use_ExtrusionLoop (F : ExtrudeFns M P P3 MP MP3 LP) (loop : LP) (g : GCode M) : GCode M :=
  let r := F.extrude_loop loop g.visitor_comment g.visitor_speed g
  { r.2 with visitor_gcode := r.2.visitor_gcode ++ r.1 }

end GCode

/-- Extrude functions used as a concrete instance: the entity is its own text, the
description follows it, and the last position is set, as an extrusion does. -/
def GCode.sampleExtrudeFns : ExtrudeFns Unit String String String String String :=
  { extrude_path := fun e c _ g => (e ++ c, GCode.set_last_pos ⟨1, 2⟩ g)
    extrude_path_3D := fun e c _ g => (e ++ c, GCode.set_last_pos ⟨1, 2⟩ g)
    extrude_multi_path := fun e c _ g => (e ++ c, GCode.set_last_pos ⟨3, 4⟩ g)
    extrude_multi_path3D := fun e c _ g => (e ++ c, GCode.set_last_pos ⟨3, 4⟩ g)
    extrude_loop := fun e c _ g => (e ++ c, GCode.set_last_pos ⟨0, 0⟩ g) }

/-- A generator with accumulated text, used as a concrete instance. -/
def GCode.sampleGCode : GCode Unit :=
  { GCode.new ⟨false, false, ()⟩ ⟨0, 0⟩ 30 with visitor_gcode := "G1 X1 ", visitor_comment := " ; p" }

/-! ## class GCode::GCodeOutputStream -/

/-- `class GCodeOutputStream`: the pointer and flag members.  `Hook` is the object a
non-null `GCodeFindReplace*` points to, the natural number in `f` the `FILE` a non-null
`FILE*` points to.  The reference members `m_processor` and `m_gcodegen`, bound once by
the constructor, are left out. -/
structure GCodeOutputStream (Hook : Type) where
  f : Option Nat
  m_find_replace : Option Hook
  m_only_ascii : Bool
  m_find_replace_backup : Option Hook

/-- The calls that change the find-replace hook of a `GCodeOutputStream`. -/
inductive FindReplaceCall (Hook : Type) where
  | set_find_replace (find_replace : Option Hook) (enabled : Bool)
  | find_replace_enable
  | find_replace_supress

namespace GCodeOutputStream

variable {Hook : Type}

/-- The constructor `GCodeOutputStream(FILE* f, ...) : f(f), ...`: both hook pointers
start null (default member initialisers); `m_only_ascii` is not initialised and is an
argument. -/
def new (f : Option Nat) (only_ascii : Bool) : GCodeOutputStream Hook :=
  { f := f, m_find_replace := none, m_only_ascii := only_ascii, m_find_replace_backup := none }

/-- `void set_find_replace(GCodeFindReplace *find_replace, bool enabled)
{ m_find_replace_backup = find_replace; m_find_replace = enabled ? find_replace : nullptr; }`. -/
def set_find_replace (find_replace : Option Hook) (enabled : Bool)
    (s : GCodeOutputStream Hook) : GCodeOutputStream Hook :=
  { s with m_find_replace_backup := find_replace
           m_find_replace := if enabled then find_replace else none }

/-- `void set_only_ascii(bool only_ascii) { m_only_ascii = only_ascii; }`. -/
def set_only_ascii (only_ascii : Bool) (s : GCodeOutputStream Hook) : GCodeOutputStream Hook :=
  { s with m_only_ascii := only_ascii }

/-- `void find_replace_enable() { m_find_replace = m_find_replace_backup; }`. -/
def find_replace_enable (s : GCodeOutputStream Hook) : GCodeOutputStream Hook :=
  { s with m_find_replace := s.m_find_replace_backup }

/-- `void find_replace_supress() { m_find_replace = nullptr; }`. -/
def find_replace_supress (s : GCodeOutputStream Hook) : GCodeOutputStream Hook :=
  { s with m_find_replace := none }

/-- `bool is_open() const { return f; }`. -/
def is_open (s : GCodeOutputStream Hook) : Bool := s.f.isSome

/-- One call on the stream. -/
def call (s : GCodeOutputStream Hook) : FindReplaceCall Hook → GCodeOutputStream Hook
  | FindReplaceCall.set_find_replace h enabled => set_find_replace h enabled s
  | FindReplaceCall.find_replace_enable => find_replace_enable s
  | FindReplaceCall.find_replace_supress => find_replace_supress s

/-- A sequence of calls on the stream, first call first. -/
def calls (cs : List (FindReplaceCall Hook)) (s : GCodeOutputStream Hook) :
    GCodeOutputStream Hook :=
  cs.foldl call s

end GCodeOutputStream

/-! ## Properties of WipeTowerIntegration::next_layer -/

namespace WipeTowerIntegration

variable {TCR : Type}

/-- Effect of `k` calls of `next_layer` on the two cursors. -/
lemma next_layer_times_cursors (k : Nat) (s : WipeTowerIntegration TCR) :
    (next_layer_times k s).m_layer_idx = s.m_layer_idx + k ∧
    (1 ≤ k → (next_layer_times k s).m_tool_change_idx = 0) := by
  induction k with
  | zero => simp [next_layer_times]
  | succ k ih =>
    refine ⟨?_, fun _ => rfl⟩
    show (next_layer_times k s).m_layer_idx + 1 = s.m_layer_idx + ((k + 1 : Nat) : Int)
    rw [ih.1]
    push_cast
    ring

/-- C1: from every state with layer cursor `L` and tool-change cursor `i`, `next_layer`
yields a state whose layer cursor is `L + 1` and whose tool-change cursor is `0`,
whatever `i` was. -/
theorem next_layer_advances_and_resets (s : WipeTowerIntegration TCR) :
    (next_layer s).m_layer_idx = s.m_layer_idx + 1 ∧ (next_layer s).m_tool_change_idx = 0 :=
  ⟨rfl, rfl⟩

/-- C9: `next_layer` modifies only the two cursors: priming blocks, per-layer tool-change
blocks, final purge block, tower position, rotation, left and right edges, extruder
offsets and the last wipe-tower print height are the same before and after the call. -/
theorem next_layer_frame (s : WipeTowerIntegration TCR) :
    (next_layer s).m_priming = s.m_priming ∧
    (next_layer s).m_tool_changes = s.m_tool_changes ∧
    (next_layer s).m_final_purge = s.m_final_purge ∧
    (next_layer s).m_wipe_tower_pos = s.m_wipe_tower_pos ∧
    (next_layer s).m_wipe_tower_rotation = s.m_wipe_tower_rotation ∧
    (next_layer s).m_left = s.m_left ∧
    (next_layer s).m_right = s.m_right ∧
    (next_layer s).m_extruder_offsets = s.m_extruder_offsets ∧
    (next_layer s).m_last_wipe_tower_print_z = s.m_last_wipe_tower_print_z :=
  ⟨rfl, rfl, rfl, rfl, rfl, rfl, rfl, rfl, rfl⟩

/-- C10: starting from a freshly constructed `WipeTowerIntegration` (layer cursor `-1`,
tool-change cursor `0`), after `k ≥ 1` calls of `next_layer` and no other operation the
layer cursor is `k - 1` and the tool-change cursor is `0`; the first call selects
layer `0`, the layer cursor never decreases, and every state reached has layer cursor
at least `-1` and tool-change cursor at least `0`. -/
theorem next_layer_times_from_new (toFloat : ℚ → ℚ) (print_config : PrintConfig)
    (priming : List TCR) (tool_changes : List (List TCR)) (final_purge : TCR) :
    (new toFloat print_config priming tool_changes final_purge).m_layer_idx = -1 ∧
    (new toFloat print_config priming tool_changes final_purge).m_tool_change_idx = 0 ∧
    (∀ k : Nat, 1 ≤ k →
      (next_layer_times k (new toFloat print_config priming tool_changes
        final_purge)).m_layer_idx = (k : Int) - 1 ∧
      (next_layer_times k (new toFloat print_config priming tool_changes
        final_purge)).m_tool_change_idx = 0) ∧
    (next_layer (new toFloat print_config priming tool_changes final_purge)).m_layer_idx = 0 ∧
    (∀ s : WipeTowerIntegration TCR, s.m_layer_idx ≤ (next_layer s).m_layer_idx) ∧
    (∀ j k : Nat, j ≤ k →
      (next_layer_times j (new toFloat print_config priming tool_changes
        final_purge)).m_layer_idx ≤
      (next_layer_times k (new toFloat print_config priming tool_changes
        final_purge)).m_layer_idx) ∧
    (∀ k : Nat,
      -1 ≤ (next_layer_times k (new toFloat print_config priming tool_changes
        final_purge)).m_layer_idx ∧
      0 ≤ (next_layer_times k (new toFloat print_config priming tool_changes
        final_purge)).m_tool_change_idx) := by
  refine ⟨rfl, rfl, ?_, rfl, ?_, ?_, ?_⟩
  · intro k hk
    obtain ⟨h1, h2⟩ := next_layer_times_cursors k
      (new toFloat print_config priming tool_changes final_purge)
    refine ⟨?_, h2 hk⟩
    rw [h1]
    show (-1 : Int) + k = k - 1
    ring
  · intro s
    show s.m_layer_idx ≤ s.m_layer_idx + 1
    omega
  · intro j k hjk
    rw [(next_layer_times_cursors j _).1, (next_layer_times_cursors k _).1]
    have : (j : Int) ≤ k := by exact_mod_cast hjk
    omega
  · intro k
    obtain ⟨h1, h2⟩ := next_layer_times_cursors k
      (new toFloat print_config priming tool_changes final_purge)
    constructor
    · rw [h1]
      show (-1 : Int) ≤ -1 + k
      omega
    · rcases Nat.eq_zero_or_pos k with h0 | hpos
      · subst h0
        exact le_of_eq rfl
      · exact le_of_eq (h2 hpos).symm

/-- Witness of C10: three calls of `next_layer` on a fresh sequencer for a two-layer
plan leave the layer cursor at `2` and the tool-change cursor at `0`. -/
theorem next_layer_times_from_new_witness :
    (1 : Nat) ≤ 3 ∧
    (next_layer_times 3 (new id ⟨10, 20, 60, 0, []⟩ [7] [[1, 2], [3]] (9 : Nat))).m_layer_idx
      = ((3 : Nat) : Int) - 1 ∧
    (next_layer_times 3 (new id ⟨10, 20, 60, 0, []⟩ [7] [[1, 2], [3]]
      (9 : Nat))).m_tool_change_idx = 0 :=
  ⟨by decide,
   (next_layer_times_from_new id ⟨10, 20, 60, 0, []⟩ [7] [[1, 2], [3]] (9 : Nat)).2.2.1 3
     (by decide)⟩

end WipeTowerIntegration

/-! ## Properties of LayerResult::make_nop_layer_result -/

namespace LayerResult

/-- The maximum of a signed type of at least one bit that is no wider than `size_t`
converts to `size_t` unchanged. -/
lemma to_size_t_max_signed (coordBits sizeBits : Nat) (h1 : 1 ≤ coordBits)
    (h2 : coordBits ≤ sizeBits) :
    to_size_t sizeBits (numeric_limits_max_signed coordBits) = 2 ^ (coordBits - 1) - 1 := by
  unfold to_size_t numeric_limits_max_signed
  have hpos : (1 : Int) ≤ 2 ^ (coordBits - 1) := one_le_pow₀ (by norm_num)
  have hlt : (2 : Int) ^ (coordBits - 1) < 2 ^ sizeBits :=
    pow_lt_pow_right₀ (by norm_num) (by omega)
  rw [Int.emod_eq_of_lt (by omega) (by omega)]
  have hn : (1 : Nat) ≤ 2 ^ (coordBits - 1) := Nat.one_le_two_pow
  zify [hn]
  rw [Int.toNat_of_nonneg (by omega)]

/-- Counterexample to C2 as stated: with a 64-bit `coord_t` and a 64-bit `size_t` the
no-op layer id is `2^63 - 1`, which is not the maximum `size_t` value `2^64 - 1`; the
same holds with a 32-bit `coord_t`. -/
theorem make_nop_layer_result_not_size_t_max :
    (make_nop_layer_result 64 64).layer_id = 9223372036854775807 ∧
    size_t_max 64 = 18446744073709551615 ∧
    (make_nop_layer_result 64 64).layer_id ≠ size_t_max 64 ∧
    (make_nop_layer_result 32 64).layer_id ≠ size_t_max 64 := by
  refine ⟨?_, ?_, ?_, ?_⟩ <;> decide

/-- C2 (amended): the no-op layer id is the maximum of the signed coordinate type
`coord_t`, `2 ^ (coordBits - 1) - 1`; whenever `coord_t` is no wider than `size_t` this
is strictly below the maximum `size_t` value, so a layer id above the sentinel is
representable. -/
theorem make_nop_layer_result_layer_id (coordBits sizeBits : Nat) (h1 : 1 ≤ coordBits)
    (h2 : coordBits ≤ sizeBits) :
    ((make_nop_layer_result coordBits sizeBits).layer_id : Int)
      = numeric_limits_max_signed coordBits ∧
    (make_nop_layer_result coordBits sizeBits).layer_id < size_t_max sizeBits := by
  have hid : (make_nop_layer_result coordBits sizeBits).layer_id = 2 ^ (coordBits - 1) - 1 :=
    to_size_t_max_signed coordBits sizeBits h1 h2
  have hn : (1 : Nat) ≤ 2 ^ (coordBits - 1) := Nat.one_le_two_pow
  have hlt : (2 : Nat) ^ (coordBits - 1) < 2 ^ sizeBits :=
    Nat.pow_lt_pow_right (by norm_num) (by omega)
  constructor
  · rw [hid]
    unfold numeric_limits_max_signed
    zify [hn]
  · rw [hid]
    unfold size_t_max
    omega

/-- Witness of C2 (amended) for a 32-bit `coord_t` and a 64-bit `size_t`. -/
theorem make_nop_layer_result_layer_id_witness :
    (1 : Nat) ≤ 32 ∧ (32 : Nat) ≤ 64 ∧
    ((make_nop_layer_result 32 64).layer_id : Int) = numeric_limits_max_signed 32 ∧
    (make_nop_layer_result 32 64).layer_id < size_t_max 64 :=
  ⟨by decide, by decide, make_nop_layer_result_layer_id 32 64 (by decide) (by decide)⟩

/-- C3: the no-op layer result has the empty string as G-code text, its
`nop_layer_result` flag is true, and `spiral_vase_enable` and `cooling_buffer_flush`
are both false. -/
theorem make_nop_layer_result_flags (coordBits sizeBits : Nat) :
    (make_nop_layer_result coordBits sizeBits).gcode = "" ∧
    (make_nop_layer_result coordBits sizeBits).nop_layer_result = true ∧
    (make_nop_layer_result coordBits sizeBits).spiral_vase_enable = false ∧
    (make_nop_layer_result coordBits sizeBits).cooling_buffer_flush = false :=
  ⟨rfl, rfl, rfl, rfl⟩

end LayerResult

/-! ## Properties of GCode::LayerToPrint::print_z -/

namespace LayerToPrint

/-- C4: when both the object layer and the support layer are present, `print_z()` is
the arithmetic mean of the two print heights; it lies between the two heights and is
the same when the two heights are exchanged. -/
theorem print_z_both_present (l : LayerToPrint) (o : Layer) (s : SupportLayer)
    (ho : l.object_layer = some o) (hs : l.support_layer = some s) :
    l.print_z = some ((o.print_z + s.print_z) / 2) ∧
    (∀ z, l.print_z = some z →
      min o.print_z s.print_z ≤ z ∧ z ≤ max o.print_z s.print_z) ∧
    (∀ (o2 : Layer) (s2 : SupportLayer), o2.print_z = s.print_z → s2.print_z = o.print_z →
      print_z { object_layer := some o2, support_layer := some s2 } = l.print_z) := by
  have hz : l.print_z = some ((o.print_z + s.print_z) / 2) := by
    unfold print_z
    rw [ho, hs]
    simp only [Option.some.injEq]
    norm_num
    ring
  refine ⟨hz, ?_, ?_⟩
  · intro z hzz
    rw [hz] at hzz
    have hzeq : (o.print_z + s.print_z) / 2 = z := Option.some.inj hzz
    subst hzeq
    rcases le_total o.print_z s.print_z with h | h
    · rw [min_eq_left h, max_eq_right h]
      constructor <;> linarith
    · rw [min_eq_right h, max_eq_left h]
      constructor <;> linarith
  · intro o2 s2 h1 h2
    rw [hz]
    unfold print_z
    simp only [Option.some.injEq]
    rw [h1, h2]
    norm_num
    ring

/-- Witness of C4: an object layer at height 3 and a support layer at height 4. -/
theorem print_z_both_present_witness :
    print_z { object_layer := some ⟨3, none⟩, support_layer := some ⟨⟨4, none⟩⟩ }
      = some (((3 : ℚ) + 4) / 2) :=
  (print_z_both_present { object_layer := some ⟨3, none⟩, support_layer := some ⟨⟨4, none⟩⟩ }
    ⟨3, none⟩ ⟨⟨4, none⟩⟩ rfl rfl).1

end LayerToPrint

/-! ## Properties of Wipe -/

namespace Wipe

/-- C7: after `reset_path()` the wipe path is empty, `has_path()` is false and the
enable flag is unchanged; `has_path()` is true exactly when the stored path has at
least one point. -/
theorem reset_path_clears (w : Wipe) :
    (reset_path w).path.points = [] ∧
    (reset_path w).has_path = false ∧
    (reset_path w).enable = w.enable ∧
    (w.has_path = true ↔ 1 ≤ w.path.points.length) := by
  refine ⟨rfl, rfl, rfl, ?_⟩
  unfold has_path
  cases w.path.points <;> simp

end Wipe

/-! ## Properties of GCode::unretract -/

namespace GCode

variable {M : Type}

/-- After `unretract()` the extruder is neither retracted nor lifted, in both orders of
evaluation. -/
lemma unretract_flags (lower restore : M → String × M) (b : Bool) (g : GCode M) :
    (unretract lower restore b g).2.m_writer.retracted = false ∧
    (unretract lower restore b g).2.m_writer.lifted = false := by
  obtain ⟨origin, ⟨r, l, m⟩, wipe, cnt, pos, posd, vg, vc, vs⟩ := g
  cases b <;> cases r <;> cases l <;>
    simp [unretract, GCodeWriter.unlift, GCodeWriter.unretract]

/-- On a toolhead that is neither retracted nor lifted `unretract()` returns the empty
text and the same generator. -/
lemma unretract_of_not_retracted (lower restore : M → String × M) (b : Bool) (g : GCode M)
    (hr : g.m_writer.retracted = false) (hl : g.m_writer.lifted = false) :
    unretract lower restore b g = ("", g) := by
  obtain ⟨origin, ⟨r, l, m⟩, wipe, cnt, pos, posd, vg, vc, vs⟩ := g
  simp only at hr hl
  subst hr hl
  cases b <;> simp [unretract, GCodeWriter.unlift, GCodeWriter.unretract]

/-- C6: on a generator whose extruder is neither retracted nor lifted, `unretract()`
emits no text and leaves the writer (and the whole generator) unchanged; calling
`unretract()` twice in a row leaves the same state as calling it once. -/
theorem unretract_idempotent (lower restore : M → String × M) (b1 b2 : Bool) (g : GCode M) :
    (g.m_writer.retracted = false → g.m_writer.lifted = false →
      (unretract lower restore b1 g).1 = "" ∧
      (unretract lower restore b1 g).2.m_writer = g.m_writer ∧
      (unretract lower restore b1 g).2 = g) ∧
    (unretract lower restore b2 (unretract lower restore b1 g).2).2
      = (unretract lower restore b1 g).2 ∧
    (unretract lower restore b2 (unretract lower restore b1 g).2).1 = "" := by
  have h2 := unretract_of_not_retracted lower restore b2 (unretract lower restore b1 g).2
    (unretract_flags lower restore b1 g).1 (unretract_flags lower restore b1 g).2
  refine ⟨?_, ?_, ?_⟩
  · intro hr hl
    have h1 := unretract_of_not_retracted lower restore b1 g hr hl
    rw [h1]
    exact ⟨rfl, rfl, rfl⟩
  · rw [h2]
  · rw [h2]

/-- Witness of C6: a generator at rest (not retracted, not lifted) with a writer whose
motion state is the pair (z, e) of rationals. -/
theorem unretract_idempotent_witness :
    (unretract (fun m : ℚ × ℚ => ("G1 Z", (m.1 - 1, m.2)))
        (fun m : ℚ × ℚ => ("G1 E", (m.1, m.2 + 2))) true
        { m_origin := ⟨0, 0⟩, m_writer := ⟨false, false, (5, 0)⟩, m_wipe := Wipe.new,
          m_layer_count := 0, m_last_pos := ⟨0, 0⟩, m_last_pos_defined := false,
          visitor_gcode := "", visitor_comment := "", visitor_speed := 0 }).1 = "" :=
  ((unretract_idempotent (fun m : ℚ × ℚ => ("G1 Z", (m.1 - 1, m.2)))
        (fun m : ℚ × ℚ => ("G1 E", (m.1, m.2 + 2))) true true
        { m_origin := ⟨0, 0⟩, m_writer := ⟨false, false, (5, 0)⟩, m_wipe := Wipe.new,
          m_layer_count := 0, m_last_pos := ⟨0, 0⟩, m_last_pos_defined := false,
          visitor_gcode := "", visitor_comment := "", visitor_speed := 0 }).1 rfl rfl).1

end GCode

/-! ## Properties of WipeTowerIntegration::tool_change -/

namespace WipeTowerIntegration

variable {TCR : Type}

/-- When the layer cursor is the index `L` of a planned layer, the planned blocks are
`m_tool_changes[L]`. -/
lemma planned_eq (s : WipeTowerIntegration TCR) (L : Nat) (blocks : List TCR)
    (hL : s.m_layer_idx = (L : Int)) (hb : s.m_tool_changes[L]? = some blocks) :
    planned s = blocks := by
  unfold planned
  rw [hL]
  show s.m_tool_changes.getD L [] = blocks
  rw [List.getD_eq_getElem?_getD, hb]
  rfl

/-- A request below the planned count is served with the block under the cursor. -/
lemma tool_change_ok (s : WipeTowerIntegration TCR) (i : Nat)
    (hi : s.m_tool_change_idx = (i : Int)) (h : i < (planned s).length) :
    tool_change s = Except.ok ((planned s)[i], { s with m_tool_change_idx := (i : Int) + 1 }) := by
  unfold tool_change
  rw [hi]
  show (match (planned s)[i]? with
    | some tcr => Except.ok (tcr, { s with m_tool_change_idx := (i : Int) + 1 })
    | none => Except.error "tool change requested beyond the planned count") = _
  rw [List.getElem?_eq_getElem h]

/-- A request at or beyond the planned count fails. -/
lemma tool_change_error (s : WipeTowerIntegration TCR)
    (h : ¬ s.m_tool_change_idx < ((planned s).length : Int)) :
    tool_change s = Except.error "tool change requested beyond the planned count" := by
  unfold tool_change
  cases hc : s.m_tool_change_idx with
  | ofNat i =>
    rw [hc] at h
    have hle : (planned s).length ≤ i := by
      have : ¬ ((i : Int) < ((planned s).length : Int)) := h
      omega
    show (match (planned s)[i]? with
      | some tcr => Except.ok (tcr, { s with m_tool_change_idx := Int.ofNat i + 1 })
      | none => Except.error "tool change requested beyond the planned count") = _
    rw [List.getElem?_eq_none hle]
  | negSucc j => rfl

/-- A served request was made with a cursor below the planned count; it only advances
the tool-change cursor. -/
lemma tool_change_inv (s s1 : WipeTowerIntegration TCR) (b : TCR)
    (h : tool_change s = Except.ok (b, s1)) :
    ∃ i : Nat, s.m_tool_change_idx = (i : Int) ∧ (planned s)[i]? = some b ∧
      s1 = { s with m_tool_change_idx := (i : Int) + 1 } := by
  by_cases hlt : s.m_tool_change_idx < ((planned s).length : Int)
  · cases hc : s.m_tool_change_idx with
    | ofNat i =>
      rw [hc] at hlt
      have hi : i < (planned s).length := by
        have : (i : Int) < ((planned s).length : Int) := hlt
        omega
      have hok := tool_change_ok s i hc hi
      rw [hok] at h
      injection h with h
      injection h with hb hs
      exact ⟨i, rfl, by rw [List.getElem?_eq_getElem hi, hb], hs.symm⟩
    | negSucc j =>
      unfold tool_change at h
      rw [hc] at h
      exact absurd h (by simp)
  · rw [tool_change_error s hlt] at h
    exact absurd h (by simp)

/-- Successive served requests: `n` requests served from a cursor `i` that is not beyond
the planned count need `i + n` planned blocks; they return the planned blocks `i, ..., i + n - 1` in order. -/
lemma tool_change_times_inv (n : Nat) : ∀ (s s2 : WipeTowerIntegration TCR)
    (served : List TCR) (i : Nat), s.m_tool_change_idx = (i : Int) →
    i ≤ (planned s).length →
    tool_change_times n s = Except.ok (served, s2) →
    i + n ≤ (planned s).length ∧ served = ((planned s).drop i).take n ∧
      s2.m_tool_change_idx = ((i + n : Nat) : Int) := by
  induction n with
  | zero =>
    intro s s2 served i hi hle h
    have hs : (([] : List TCR), s) = (served, s2) := by
      have h0 : (Except.ok (([] : List TCR), s) : Except String _) = Except.ok (served, s2) := h
      injection h0
    injection hs with h1 h2
    subst h1 h2
    exact ⟨hle, by simp, by simpa using hi⟩
  | succ n ih =>
    intro s s2 served i hi _ h
    unfold tool_change_times at h
    cases hc : tool_change s with
    | error e =>
      rw [hc] at h
      exact absurd h (by simp)
    | ok r =>
      obtain ⟨b, s1⟩ := r
      rw [hc] at h
      dsimp only at h
      obtain ⟨i1, hi1, hget, hs1⟩ := tool_change_inv s s1 b hc
      have hii : i1 = i := by
        have : (i1 : Int) = (i : Int) := by rw [← hi1, hi]
        exact_mod_cast this
      subst hii
      have hp : planned s1 = planned s := by
        rw [hs1]
        rfl
      have hidx : s1.m_tool_change_idx = ((i1 + 1 : Nat) : Int) := by
        rw [hs1]
        push_cast
        rfl
      cases hr : tool_change_times n s1 with
      | error e =>
        rw [hr] at h
        exact absurd h (by simp)
      | ok r2 =>
        obtain ⟨rest, s3⟩ := r2
        rw [hr] at h
        have hlt : i1 < (planned s).length := by
          rcases Nat.lt_or_ge i1 (planned s).length with h1 | h1
          · exact h1
          · rw [List.getElem?_eq_none h1] at hget
            exact absurd hget (by simp)
        have hpair : (b :: rest, s3) = (served, s2) := by
          have h0 : (Except.ok (b :: rest, s3) : Except String _)
              = Except.ok (served, s2) := h
          injection h0
        injection hpair with h1 h2
        subst h1 h2
        obtain ⟨hlen, hrest, hcur⟩ := ih s1 s3 rest (i1 + 1) hidx (by rw [hp]; omega) hr
        rw [hp] at hlen hrest
        refine ⟨by omega, ?_, ?_⟩
        · rw [List.drop_eq_getElem_cons hlt, List.take_succ_cons, hrest]
          congr 1
          have := List.getElem?_eq_getElem hlt
          rw [hget] at this
          exact Option.some.inj this
        · rw [hcur]
          congr 1
          omega

/-- C5: with layer cursor `L` (a planned layer with blocks `m_tool_changes[L]`) and
tool-change cursor `i`: when `i` is below the number of blocks planned for layer `L`,
`tool_change` returns the block `m_tool_changes[L][i]` and advances the tool-change
cursor to `i + 1`; otherwise it fails instead of returning a block.  Hence the requests
served from the start of a layer never outnumber the planned blocks, and they are the
planned blocks in order. -/
theorem tool_change_contract (s : WipeTowerIntegration TCR) (L i : Nat) (blocks : List TCR)
    (hL : s.m_layer_idx = (L : Int)) (hi : s.m_tool_change_idx = (i : Int))
    (hb : s.m_tool_changes[L]? = some blocks) :
    (∀ h : i < blocks.length,
      tool_change s = Except.ok (blocks[i], { s with m_tool_change_idx := (i : Int) + 1 })) ∧
    (¬ i < blocks.length → ∃ e, tool_change s = Except.error e) ∧
    (∀ (n : Nat) (served : List TCR) (s2 : WipeTowerIntegration TCR),
      tool_change_times n { s with m_tool_change_idx := 0 } = Except.ok (served, s2) →
      n ≤ blocks.length ∧ served = blocks.take n ∧ s2.m_tool_change_idx = (n : Int)) := by
  have hp : planned s = blocks := planned_eq s L blocks hL hb
  refine ⟨?_, ?_, ?_⟩
  · intro h
    have hok := tool_change_ok s i hi (by rw [hp]; exact h)
    rw [hok]
    simp only [hp]
  · intro h
    refine ⟨_, tool_change_error s ?_⟩
    rw [hp, hi]
    intro hlt
    exact h (by exact_mod_cast hlt)
  · intro n served s2 hrun
    have hp0 : planned { s with m_tool_change_idx := 0 } = blocks := hp
    obtain ⟨h1, h2, h3⟩ := tool_change_times_inv n { s with m_tool_change_idx := 0 } s2
      served 0 rfl (Nat.zero_le _) hrun
    rw [hp0] at h1 h2
    refine ⟨by omega, by simpa using h2, ?_⟩
    rw [h3]
    congr 1
    omega

/-- Witness of C5: on layer 0 of the plan `[[1, 2], [3]]`, with tool-change cursor 1,
the request is served with block `2` and the cursor moves to 2. -/
theorem tool_change_contract_witness :
    tool_change { next_layer (new id ⟨10, 20, 60, 0, []⟩ [7] [[1, 2], [3]] (9 : Nat)) with
        m_tool_change_idx := 1 }
      = Except.ok (2, { next_layer (new id ⟨10, 20, 60, 0, []⟩ [7] [[1, 2], [3]] (9 : Nat)) with
        m_tool_change_idx := 2 }) :=
  (tool_change_contract
    { next_layer (new id ⟨10, 20, 60, 0, []⟩ [7] [[1, 2], [3]] (9 : Nat)) with
        m_tool_change_idx := 1 } 0 1 [1, 2] rfl rfl rfl).1 (by decide)

end WipeTowerIntegration

/-! ## Properties of GCode::use -/

namespace GCode

variable {M P P3 MP MP3 LP : Type}

/-- C11: for each of the five non-collection entity kinds (path, 3D path, multi-path,
3D multi-path, loop), `use(entity)` sets `visitor_gcode` to its previous content followed
by the text returned by the matching extrude function called with `visitor_comment` and
`visitor_speed`; the text accumulated before is a leading part of the new text.  The
extrude functions are taken to leave `visitor_gcode` alone. -/
theorem use_appends (F : ExtrudeFns M P P3 MP MP3 LP) (hF : F.keeps_visitor_gcode)
    (g : GCode M) :
    (∀ path : P,
      (use_ExtrusionPath F path g).visitor_gcode
        = g.visitor_gcode ++ (F.extrude_path path g.visitor_comment g.visitor_speed g).1 ∧
      ∃ t, (use_ExtrusionPath F path g).visitor_gcode = g.visitor_gcode ++ t) ∧
    (∀ path3D : P3,
      (use_ExtrusionPath3D F path3D g).visitor_gcode
        = g.visitor_gcode ++ (F.extrude_path_3D path3D g.visitor_comment g.visitor_speed g).1 ∧
      ∃ t, (use_ExtrusionPath3D F path3D g).visitor_gcode = g.visitor_gcode ++ t) ∧
    (∀ multipath : MP,
      (use_ExtrusionMultiPath F multipath g).visitor_gcode
        = g.visitor_gcode
          ++ (F.extrude_multi_path multipath g.visitor_comment g.visitor_speed g).1 ∧
      ∃ t, (use_ExtrusionMultiPath F multipath g).visitor_gcode = g.visitor_gcode ++ t) ∧
    (∀ multipath : MP3,
      (use_ExtrusionMultiPath3D F multipath g).visitor_gcode
        = g.visitor_gcode
          ++ (F.extrude_multi_path3D multipath g.visitor_comment g.visitor_speed g).1 ∧
      ∃ t, (use_ExtrusionMultiPath3D F multipath g).visitor_gcode = g.visitor_gcode ++ t) ∧
    (∀ loop : LP,
      (use_ExtrusionLoop F loop g).visitor_gcode
        = g.visitor_gcode ++ (F.extrude_loop loop g.visitor_comment g.visitor_speed g).1 ∧
      ∃ t, (use_ExtrusionLoop F loop g).visitor_gcode = g.visitor_gcode ++ t) := by
  obtain ⟨h1, h2, h3, h4, h5⟩ := hF
  refine ⟨?_, ?_, ?_, ?_, ?_⟩
  · intro e
    have h : (use_ExtrusionPath F e g).visitor_gcode
        = g.visitor_gcode ++ (F.extrude_path e g.visitor_comment g.visitor_speed g).1 := by
      show (F.extrude_path e g.visitor_comment g.visitor_speed g).2.visitor_gcode ++ _ = _
      rw [h1]
    exact ⟨h, _, h⟩
  · intro e
    have h : (use_ExtrusionPath3D F e g).visitor_gcode
        = g.visitor_gcode ++ (F.extrude_path_3D e g.visitor_comment g.visitor_speed g).1 := by
      show (F.extrude_path_3D e g.visitor_comment g.visitor_speed g).2.visitor_gcode ++ _ = _
      rw [h2]
    exact ⟨h, _, h⟩
  · intro e
    have h : (use_ExtrusionMultiPath F e g).visitor_gcode
        = g.visitor_gcode ++ (F.extrude_multi_path e g.visitor_comment g.visitor_speed g).1 := by
      show (F.extrude_multi_path e g.visitor_comment g.visitor_speed g).2.visitor_gcode ++ _ = _
      rw [h3]
    exact ⟨h, _, h⟩
  · intro e
    have h : (use_ExtrusionMultiPath3D F e g).visitor_gcode
        = g.visitor_gcode
          ++ (F.extrude_multi_path3D e g.visitor_comment g.visitor_speed g).1 := by
      show (F.extrude_multi_path3D e g.visitor_comment g.visitor_speed g).2.visitor_gcode
        ++ _ = _
      rw [h4]
    exact ⟨h, _, h⟩
  · intro e
    have h : (use_ExtrusionLoop F e g).visitor_gcode
        = g.visitor_gcode ++ (F.extrude_loop e g.visitor_comment g.visitor_speed g).1 := by
      show (F.extrude_loop e g.visitor_comment g.visitor_speed g).2.visitor_gcode ++ _ = _
      rw [h5]
    exact ⟨h, _, h⟩

/-- Witness of C11: visiting the path `"G1 X2"` after `"G1 X1 "` was accumulated. -/
theorem use_appends_witness :
    sampleExtrudeFns.keeps_visitor_gcode ∧
    (use_ExtrusionPath sampleExtrudeFns "G1 X2" sampleGCode).visitor_gcode
      = "G1 X1 " ++ ("G1 X2" ++ " ; p") :=
  ⟨⟨fun _ _ _ _ => rfl, fun _ _ _ _ => rfl, fun _ _ _ _ => rfl, fun _ _ _ _ => rfl,
      fun _ _ _ _ => rfl⟩,
   ((use_appends sampleExtrudeFns
      ⟨fun _ _ _ _ => rfl, fun _ _ _ _ => rfl, fun _ _ _ _ => rfl, fun _ _ _ _ => rfl,
        fun _ _ _ _ => rfl⟩ sampleGCode).1 "G1 X2").1⟩

/-! ## Properties of GCode::set_last_pos -/

/-- C12: a freshly constructed `GCode` has an undefined last position; for every state
and every point `p`, after `set_last_pos(p)` the generator reports `last_pos() == p` and
`last_pos_defined() == true`, so `set_last_pos` never makes a defined position
undefined. -/
theorem set_last_pos_defines (writer : GCodeWriter M) (last_pos0 : Point) (speed0 : ℚ)
    (g : GCode M) (p : Point) :
    (new writer last_pos0 speed0).last_pos_defined = false ∧
    (set_last_pos p g).last_pos = p ∧
    (set_last_pos p g).last_pos_defined = true ∧
    (g.last_pos_defined = true → (set_last_pos p g).last_pos_defined = true) :=
  ⟨rfl, rfl, rfl, fun _ => rfl⟩

end GCode

/-! ## Properties of GCode::GCodeOutputStream -/

namespace GCodeOutputStream

variable {Hook : Type}

/-- Each call keeps the active hook null or equal to the backup hook. -/
lemma call_keeps_active_null_or_backup (s : GCodeOutputStream Hook) (c : FindReplaceCall Hook)
    (_h : s.m_find_replace = none ∨ s.m_find_replace = s.m_find_replace_backup) :
    (call s c).m_find_replace = none ∨
      (call s c).m_find_replace = (call s c).m_find_replace_backup := by
  cases c with
  | set_find_replace hook enabled =>
    cases enabled
    · exact Or.inl rfl
    · exact Or.inr rfl
  | find_replace_enable => exact Or.inr rfl
  | find_replace_supress => exact Or.inl rfl

/-- A sequence of calls keeps the active hook null or equal to the backup hook. -/
lemma calls_keep_active_null_or_backup (cs : List (FindReplaceCall Hook)) :
    ∀ s : GCodeOutputStream Hook,
    (s.m_find_replace = none ∨ s.m_find_replace = s.m_find_replace_backup) →
    ((calls cs s).m_find_replace = none ∨
      (calls cs s).m_find_replace = (calls cs s).m_find_replace_backup) := by
  induction cs with
  | nil => intro s h; exact h
  | cons c cs ih =>
    intro s h
    exact ih (call s c) (call_keeps_active_null_or_backup s c h)

/-- C13: for every hook `h`, after `set_find_replace(h, true)` the active hook is `h`;
`find_replace_supress()` then makes the active hook null while the backup still holds
`h`; and a following `find_replace_enable()` makes the active hook `h` again. -/
theorem supress_then_enable_restores (s : GCodeOutputStream Hook) (h : Option Hook) :
    (set_find_replace h true s).m_find_replace = h ∧
    (find_replace_supress (set_find_replace h true s)).m_find_replace = none ∧
    (find_replace_supress (set_find_replace h true s)).m_find_replace_backup = h ∧
    (find_replace_enable (find_replace_supress (set_find_replace h true s))).m_find_replace
      = h :=
  ⟨rfl, rfl, rfl, rfl⟩

/-- C16: in every state reached from a constructed stream through `set_find_replace`,
`find_replace_enable` and `find_replace_supress`, the active hook is null or equal to
the backup hook; and `find_replace_enable` does not look at the `enabled` flag given to
`set_find_replace`: after `set_find_replace(h, false)` the active hook is null, and after
a following `find_replace_enable()` it is `h`. -/
theorem active_hook_null_or_backup (f : Option Nat) (only_ascii : Bool)
    (cs : List (FindReplaceCall Hook)) (s : GCodeOutputStream Hook) (h : Option Hook) :
    ((calls cs (new f only_ascii)).m_find_replace = none ∨
      (calls cs (new f only_ascii)).m_find_replace
        = (calls cs (new f only_ascii)).m_find_replace_backup) ∧
    (set_find_replace h false s).m_find_replace = none ∧
    (find_replace_enable (set_find_replace h false s)).m_find_replace = h :=
  ⟨calls_keep_active_null_or_backup cs (new f only_ascii) (Or.inl rfl), rfl, rfl⟩

end GCodeOutputStream

/-! ## Properties of GCode::LayerToPrint::layer and object -/

namespace LayerToPrint

/-- C14: with exactly one of the two layers present, `layer()` returns that layer and
`print_z()` is that layer's own print height; with both present `layer()` returns the
object layer. -/
theorem layer_one_present (o : Layer) (s : SupportLayer) :
    layer { object_layer := some o, support_layer := none } = some o ∧
    print_z { object_layer := some o, support_layer := none } = some o.print_z ∧
    layer { object_layer := none, support_layer := some s } = some s.toLayer ∧
    print_z { object_layer := none, support_layer := some s } = some s.print_z ∧
    layer { object_layer := some o, support_layer := some s } = some o :=
  ⟨rfl, rfl, rfl, rfl, rfl⟩

/-- C15: `layer()` is null exactly when both `object_layer` and `support_layer` are
null, and `object()` is null whenever `layer()` is null; `print_z()` is defined for
every `LayerToPrint` with at least one layer present, and it dereferences a null
pointer exactly when both are null, as in a default-constructed `LayerToPrint`. -/
theorem layer_null_iff (l : LayerToPrint) :
    (l.layer = none ↔ l.object_layer = none ∧ l.support_layer = none) ∧
    (l.layer = none → l.object = none) ∧
    ((l.object_layer ≠ none ∨ l.support_layer ≠ none) → ∃ z, l.print_z = some z) ∧
    (l.print_z = none ↔ l.object_layer = none ∧ l.support_layer = none) ∧
    new.layer = none ∧ new.object = none ∧ new.print_z = none := by
  obtain ⟨ol, sl⟩ := l
  cases ol <;> cases sl <;> simp [layer, object, print_z, new]

/-- Witness of C15: a `LayerToPrint` holding only a support layer at height 2. -/
theorem layer_null_iff_witness :
    ∃ z, print_z { object_layer := none, support_layer := some ⟨⟨2, none⟩⟩ } = some z :=
  (layer_null_iff { object_layer := none, support_layer := some ⟨⟨2, none⟩⟩ }).2.2.1
    (Or.inr (by simp))

end LayerToPrint

end Slic3r
